import Mathlib

/-!
Shallow embedding of the Valerix order-fulfillment core: the order service's
placement handler and completion consumer, the inventory service's
`deductInventory` (idempotency check + transactional stock decrement), the
background work-queue consumer, and the rolling-window latency aggregator,
translated from `src/services/order-service/src/index.ts`.

Databases are modelled as association lists keyed by string ids; `dbFind`
stands for prisma's `findUnique` and `dbUpdate` for `update` (which leaves the
list unchanged when the key is absent, matching the caught-and-logged prisma
error on a missing row). Fallible code returns `Except`; the prisma
`$transaction` either commits all of its writes or returns the input state
unchanged.
-/

namespace Valerix

/-- `findUnique` on an association list keyed by string ids. -/
def dbFind {α : Type} : List (String × α) → String → Option α
  | [], _ => none
  | (k, v) :: rest, target => if k = target then some v else dbFind rest target

/-- `update` on an association list: replaces the first matching row, and is a
no-op when the key is absent (prisma throws there; every caller catches and
ignores that error). -/
def dbUpdate {α : Type} : List (String × α) → String → α → List (String × α)
  | [], _, _ => []
  | (k, v) :: rest, target, newV =>
    if k = target then (k, newV) :: rest else (k, v) :: dbUpdate rest target newV

/-- Inventory-service database: product stocks (`product` table, id ↦ stock)
and the `idempotencyLog` table (the set of orderIds already applied). -/
structure InvState where
  products : List (String × Int)
  idempotencyLog : List String
  deriving Repr, DecidableEq

/-- The two success outcomes of `deductInventory`: a fresh application, or the
early idempotent return. -/
inductive DeductOk where
  | applied
  | alreadyApplied
  deriving Repr, DecidableEq

/-- The `message` field of the JSON value `deductInventory` returns. -/
def deductMessage : DeductOk → String
  | DeductOk.applied => "Stock deducted"
  | DeductOk.alreadyApplied => "Stock already deducted (Idempotent)"

/-- `deductInventory(productId, quantity, orderId)` from the inventory
service: checks `idempotencyLog` first and returns early if a record exists;
otherwise runs a transaction that reads the product, throws
"Insufficient stock or product not found" when the product is missing or
`stock < quantity` (rolling back, i.e. leaving the state unchanged), and
otherwise writes `stock - quantity` and creates the idempotency record, both
committing together. -/
def deductInventory (s : InvState) (productId : String) (quantity : Int)
    (orderId : String) : Except String DeductOk × InvState :=
  if orderId ∈ s.idempotencyLog then
    (Except.ok DeductOk.alreadyApplied, s)
  else
    match dbFind s.products productId with
    | none => (Except.error "Insufficient stock or product not found", s)
    | some stock =>
      if stock < quantity then
        (Except.error "Insufficient stock or product not found", s)
      else
        (Except.ok DeductOk.applied,
          { products := dbUpdate s.products productId (stock - quantity),
            idempotencyLog := orderId :: s.idempotencyLog })

/-- Responses of the `POST /inventory/deduct` endpoint. -/
inductive InvResponse where
  | ok (message : String) (success : Bool)
  | badRequest (error : String)
  deriving Repr, DecidableEq

/-- The `POST /inventory/deduct` handler: 400 on falsy `productId`,
`quantity` or `orderId`, otherwise calls `deductInventory` and maps a thrown
error to a 400 with the error message. The `gremlin` flag only delays the
response; it changes no state. -/
def inventoryDeductEndpoint (s : InvState) (productId : String) (quantity : Int)
    (orderId : String) (gremlin : Bool) : InvResponse × InvState :=
  if productId = "" ∨ quantity = 0 ∨ orderId = "" then
    (InvResponse.badRequest "Missing productId, quantity, or orderId", s)
  else
    let _ := gremlin
    match deductInventory s productId quantity orderId with
    | (Except.ok r, s') => (InvResponse.ok (deductMessage r) true, s')
    | (Except.error e, s') => (InvResponse.badRequest e, s')

/-- Order-service database: `order` table, id ↦ status string
("PENDING", "CONFIRMED", "QUEUED", "COMPLETED", "FAILED"). -/
abbrev OrderDb := List (String × String)

/-- Message placed on `inventory_queue` on the timeout fallback path:
`{ productId, quantity, orderId }`. -/
structure WorkItem where
  productId : String
  quantity : Int
  orderId : String
  deriving Repr, DecidableEq

/-- Responses of the order service's `POST /orders` handler: 400 for missing
input, 201 with the confirmed order, 202 with
`{ message, status: QUEUED, id }`, 503 with `{ error, orderId, status: FAILED }`. -/
inductive OrderResponse where
  | badRequest (error : String)
  | confirmed (orderId : String)
  | queued (message : String) (status : String) (id : String)
  | failed (error : String) (orderId : String) (status : String)
  deriving Repr, DecidableEq

/-- HTTP status code attached to each `POST /orders` response shape. -/
def OrderResponse.httpStatus : OrderResponse → Nat
  | OrderResponse.badRequest _ => 400
  | OrderResponse.confirmed _ => 201
  | OrderResponse.queued _ _ _ => 202
  | OrderResponse.failed _ _ _ => 503

/-- Environment of one `POST /orders` request: whether the axios call to the
inventory service exceeded its 2000 ms deadline (`ECONNABORTED` / message
containing "timeout"), whether the RabbitMQ `channel` is non-null, and whether
`sendToQueue` succeeds rather than throwing. -/
structure PlaceEnv where
  timedOut : Bool
  channelUp : Bool
  enqueueOk : Bool
  deriving Repr, DecidableEq

/-- Result of one `POST /orders` request: the HTTP response, the order table,
the inventory-service state, and the messages sent to `inventory_queue`. -/
structure PlaceOutcome where
  resp : OrderResponse
  orders : OrderDb
  inv : InvState
  sentWork : List WorkItem
  deriving Repr, DecidableEq

/-- The handler's `errorMessage` variable: initialized to this string and
never reassigned, so every 503 carries it verbatim. -/
def errorMessageDefault : String := "Order failed due to inventory issue"

/-- The `POST /orders` handler. Rejects falsy `productId`/`quantity` with a
400; creates the order PENDING; calls the inventory deduct endpoint under a
2 s deadline. On a 200 it sets the order CONFIRMED (201). On any non-2xx
axios throws: a timeout with the channel up enqueues a WorkItem, sets QUEUED
and returns 202; a timeout with the channel down or a failed `sendToQueue`
falls through to the general failure, as does every non-timeout error:
order set FAILED, 503 with the default error message. `freshId` is the id
prisma assigns to the newly created order. -/
def placeOrder (orders : OrderDb) (inv : InvState) (freshId : String)
    (productId : String) (quantity : Int) (gremlin : Bool) (env : PlaceEnv) :
    PlaceOutcome :=
  if productId = "" ∨ quantity = 0 then
    ⟨OrderResponse.badRequest "Missing productId or quantity", orders, inv, []⟩
  else
    let orders1 : OrderDb := (freshId, "PENDING") :: orders
    if env.timedOut then
      if env.channelUp ∧ env.enqueueOk then
        ⟨OrderResponse.queued "Order timed out, queued for async processing"
            "QUEUED" freshId,
          dbUpdate orders1 freshId "QUEUED", inv, [⟨productId, quantity, freshId⟩]⟩
      else
        ⟨OrderResponse.failed errorMessageDefault freshId "FAILED",
          dbUpdate orders1 freshId "FAILED", inv, []⟩
    else
      match inventoryDeductEndpoint inv productId quantity freshId gremlin with
      | (InvResponse.ok _ _, inv') =>
        ⟨OrderResponse.confirmed freshId, dbUpdate orders1 freshId "CONFIRMED",
          inv', []⟩
      | (InvResponse.badRequest _, inv') =>
        ⟨OrderResponse.failed errorMessageDefault freshId "FAILED",
          dbUpdate orders1 freshId "FAILED", inv', []⟩

/-- Message placed on `order_completion_queue`:
`{ orderId, status, message }`. -/
structure CompletionEvent where
  orderId : String
  status : String
  message : String
  deriving Repr, DecidableEq

/-- Result of the inventory-service consumer handling one `inventory_queue`
message: whether the message was acked, the completion events sent, and the
resulting inventory state. -/
structure ConsumeOutcome where
  acked : Bool
  completionEvents : List CompletionEvent
  inv : InvState
  deriving Repr, DecidableEq

/-- The `inventory_queue` consumer: calls `deductInventory`; on success sends
a COMPLETED completion event and acks; on a thrown error the catch block only
logs and acks — no completion event is sent. -/
def consumeWorkItem (s : InvState) (w : WorkItem) : ConsumeOutcome :=
  let r := deductInventory s w.productId w.quantity w.orderId
  match r.1 with
  | Except.ok _ =>
    ⟨true, [⟨w.orderId, "COMPLETED", "Inventory deducted successfully (Async)"⟩], r.2⟩
  | Except.error _ => ⟨true, [], r.2⟩

/-- Status written by the order service's completion consumer:
the event's status when it is COMPLETED or FAILED, else COMPLETED. -/
def completionStatus (evStatus : String) : String :=
  if evStatus = "COMPLETED" ∨ evStatus = "FAILED" then evStatus else "COMPLETED"

/-- The `order_completion_queue` consumer: unconditionally updates the
referenced order's status to `completionStatus` of the event's status field
(a missing order makes prisma throw; the catch block ignores it). -/
def applyCompletion (orders : OrderDb) (orderId evStatus : String) : OrderDb :=
  dbUpdate orders orderId (completionStatus evStatus)

/-- One entry of `requestDurations`: wall-clock time in ms and request
duration in seconds. -/
structure LatencySample where
  time : Int
  duration : Rat
  deriving Repr, DecidableEq

/-- `WINDOW_SIZE_MS = 30000`. -/
def WINDOW_SIZE_MS : Int := 30000

/-- The `validDurations` filter of the `GET /stats` handler: samples whose
age at read time is at most the window size. -/
def validDurations (samples : List LatencySample) (now : Int) : List LatencySample :=
  samples.filter (fun r => now - r.time ≤ WINDOW_SIZE_MS)

/-- The `GET /stats` average: re-filters at read time, sums the durations via
`reduce` from 0, and divides by the count when it is positive, else 0. -/
def statsAverage (samples : List LatencySample) (now : Int) : Rat :=
  let valid := validDurations samples now
  let count := valid.length
  let totalDuration := valid.foldl (fun sum r => sum + r.duration) 0
  if count > 0 then totalDuration / count else 0

/-- Updating a present key makes `dbFind` return the new value. -/
theorem dbFind_dbUpdate {α : Type} (l : List (String × α)) (k : String) (v0 v : α)
    (h : dbFind l k = some v0) : dbFind (dbUpdate l k v) k = some v := by
  induction l with
  | nil => simp [dbFind] at h
  | cons hd tl ih =>
    obtain ⟨k0, w⟩ := hd
    by_cases hk : k0 = k
    · simp [dbFind, dbUpdate, hk]
    · simp [dbFind, dbUpdate, hk] at h ⊢
      exact ih h

/-- Updating a key leaves `dbFind` at other keys unchanged. -/
theorem dbFind_dbUpdate_ne {α : Type} (l : List (String × α)) (k k' : String) (v : α)
    (h : k ≠ k') : dbFind (dbUpdate l k v) k' = dbFind l k' := by
  induction l with
  | nil => simp [dbUpdate]
  | cons hd tl ih =>
    obtain ⟨k0, w⟩ := hd
    by_cases hk : k0 = k
    · subst hk
      simp [dbFind, dbUpdate, h]
    · simp [dbFind, dbUpdate, hk]
      by_cases hk' : k0 = k'
      · simp [hk']
      · simp [hk', ih]

/-- C1: a `fulfill` (`deductInventory`) call that applies the deduction makes
any repeat call with the same orderId, productId and quantity return the
idempotent success without changing any state: across the two calls the stock
is decremented exactly once, from `st` to `st - q`. -/
theorem deduct_twice_applies_once (s : InvState) (pid : String) (q : Int)
    (oid : String) (st : Int)
    (happ : (deductInventory s pid q oid).1 = Except.ok DeductOk.applied)
    (hst : dbFind s.products pid = some st) :
    (deductInventory (deductInventory s pid q oid).2 pid q oid).1
        = Except.ok DeductOk.alreadyApplied ∧
    (deductInventory (deductInventory s pid q oid).2 pid q oid).2
        = (deductInventory s pid q oid).2 ∧
    dbFind ((deductInventory (deductInventory s pid q oid).2 pid q oid).2).products pid
        = some (st - q) := by
  by_cases hmem : oid ∈ s.idempotencyLog
  · simp [deductInventory, hmem] at happ
  · by_cases hlt : st < q
    · simp [deductInventory, hmem, hst, hlt] at happ
    · have hs1 : (deductInventory s pid q oid).2
          = ⟨dbUpdate s.products pid (st - q), oid :: s.idempotencyLog⟩ := by
        simp [deductInventory, hmem, hst, hlt]
      rw [hs1]
      have hmem2 : oid ∈ oid :: s.idempotencyLog := List.mem_cons_self oid _
      refine ⟨?_, ?_, ?_⟩
      · simp [deductInventory, hmem2]
      · simp [deductInventory, hmem2]
      · simp only [deductInventory, hmem2, if_true]
        exact dbFind_dbUpdate s.products pid st (st - q) hst

/-- Witness for C1 at a concrete state: product p1 with stock 10, deducting 3
twice for order o1 leaves stock 7 and the second call is the idempotent
no-op. -/
theorem deduct_twice_applies_once_witness :
    ((deductInventory ⟨[("p1", 10)], []⟩ "p1" 3 "o1").1
        = Except.ok DeductOk.applied) ∧
    (dbFind (InvState.products ⟨[("p1", 10)], []⟩) "p1" = some 10) ∧
    ((deductInventory (deductInventory ⟨[("p1", 10)], []⟩ "p1" 3 "o1").2 "p1" 3 "o1").1
        = Except.ok DeductOk.alreadyApplied ∧
     (deductInventory (deductInventory ⟨[("p1", 10)], []⟩ "p1" 3 "o1").2 "p1" 3 "o1").2
        = (deductInventory ⟨[("p1", 10)], []⟩ "p1" 3 "o1").2 ∧
     dbFind ((deductInventory (deductInventory ⟨[("p1", 10)], []⟩ "p1" 3 "o1").2 "p1" 3 "o1").2).products "p1"
        = some (10 - 3)) :=
  ⟨by rfl, by decide,
    deduct_twice_applies_once ⟨[("p1", 10)], []⟩ "p1" 3 "o1" 10 (by rfl) (by decide)⟩

/-- C3: with no idempotency record for the orderId and insufficient stock,
`deductInventory` fails with the insufficient-stock error and returns the
state unchanged — no stock write and no idempotency record commit. -/
theorem deduct_insufficient_rolls_back (s : InvState) (pid oid : String)
    (q st : Int)
    (hmem : oid ∉ s.idempotencyLog)
    (hst : dbFind s.products pid = some st)
    (hlt : st < q) :
    deductInventory s pid q oid
      = (Except.error "Insufficient stock or product not found", s) := by
  simp [deductInventory, hmem, hst, hlt]

/-- Witness for C3: stock 2 cannot cover quantity 5; the call errors and the
state is exactly the input state. -/
theorem deduct_insufficient_rolls_back_witness :
    ("o1" ∉ InvState.idempotencyLog ⟨[("p1", 2)], []⟩) ∧
    (dbFind (InvState.products ⟨[("p1", 2)], []⟩) "p1" = some 2) ∧
    ((2 : Int) < 5) ∧
    (deductInventory ⟨[("p1", 2)], []⟩ "p1" 5 "o1"
      = (Except.error "Insufficient stock or product not found", ⟨[("p1", 2)], []⟩)) :=
  ⟨by decide, by decide, by decide,
    deduct_insufficient_rolls_back ⟨[("p1", 2)], []⟩ "p1" "o1" 5 2
      (by decide) (by decide) (by decide)⟩

/-- C4: on a synchronous-call timeout with the channel up and a successful
enqueue, the order ends QUEUED, a WorkItem is enqueued, and the caller gets
the 202 response carrying the order id and status QUEUED, whose HTTP status
differs from the 201 synchronous-success response. -/
theorem placeOrder_timeout_enqueued (orders : OrderDb) (inv : InvState)
    (freshId productId : String) (q : Int) (g : Bool) (env : PlaceEnv)
    (hv : ¬(productId = "" ∨ q = 0))
    (ht : env.timedOut = true) (hc : env.channelUp = true)
    (he : env.enqueueOk = true) :
    (placeOrder orders inv freshId productId q g env).resp
        = OrderResponse.queued "Order timed out, queued for async processing"
            "QUEUED" freshId ∧
    dbFind (placeOrder orders inv freshId productId q g env).orders freshId
        = some "QUEUED" ∧
    OrderResponse.httpStatus (placeOrder orders inv freshId productId q g env).resp
        = 202 ∧
    OrderResponse.httpStatus (OrderResponse.confirmed freshId)
        ≠ OrderResponse.httpStatus (placeOrder orders inv freshId productId q g env).resp ∧
    (placeOrder orders inv freshId productId q g env).sentWork
        = [⟨productId, q, freshId⟩] := by
  have hpo : placeOrder orders inv freshId productId q g env =
      ⟨OrderResponse.queued "Order timed out, queued for async processing"
          "QUEUED" freshId,
        (freshId, "QUEUED") :: orders, inv, [⟨productId, q, freshId⟩]⟩ := by
    simp [placeOrder, hv, ht, hc, he, dbUpdate]
  rw [hpo]
  exact ⟨rfl, by simp [dbFind], rfl, by simp [OrderResponse.httpStatus], rfl⟩

/-- Witness for C4: a concrete timed-out request is answered 202/QUEUED with
the fresh order id, the order row reads QUEUED, and a WorkItem is sent. -/
theorem placeOrder_timeout_enqueued_witness :
    (placeOrder [] ⟨[("p1", 5)], []⟩ "o1" "p1" 2 true ⟨true, true, true⟩).resp
        = OrderResponse.queued "Order timed out, queued for async processing"
            "QUEUED" "o1" ∧
    dbFind (placeOrder [] ⟨[("p1", 5)], []⟩ "o1" "p1" 2 true ⟨true, true, true⟩).orders "o1"
        = some "QUEUED" ∧
    OrderResponse.httpStatus
        (placeOrder [] ⟨[("p1", 5)], []⟩ "o1" "p1" 2 true ⟨true, true, true⟩).resp = 202 ∧
    OrderResponse.httpStatus (OrderResponse.confirmed "o1")
        ≠ OrderResponse.httpStatus
            (placeOrder [] ⟨[("p1", 5)], []⟩ "o1" "p1" 2 true ⟨true, true, true⟩).resp ∧
    (placeOrder [] ⟨[("p1", 5)], []⟩ "o1" "p1" 2 true ⟨true, true, true⟩).sentWork
        = [⟨"p1", 2, "o1"⟩] :=
  placeOrder_timeout_enqueued [] ⟨[("p1", 5)], []⟩ "o1" "p1" 2 true ⟨true, true, true⟩
    (by decide) rfl rfl rfl

/-- C5 counterexample: a timed-out request hitting a down channel gets the
same 503 body (the generic "Order failed due to inventory issue", status
FAILED) as a request that fails for insufficient stock — the response does
not identify the queue-unavailable condition. -/
theorem queue_down_response_generic :
    (placeOrder [] ⟨[("p1", 7)], []⟩ "o1" "p1" 5 false ⟨true, false, true⟩).resp
        = (placeOrder [] ⟨[("p1", 2)], []⟩ "o1" "p1" 5 false ⟨false, true, true⟩).resp ∧
    (placeOrder [] ⟨[("p1", 7)], []⟩ "o1" "p1" 5 false ⟨true, false, true⟩).resp
        = OrderResponse.failed "Order failed due to inventory issue" "o1" "FAILED" :=
  ⟨rfl, rfl⟩

/-- C5 (amended): on a timeout with the channel down or a failing enqueue,
the order ends FAILED and the caller receives the 503 response with the
generic error message and the order id — the order is not silently lost, but
the body is the same as for any other terminal failure; the queue-unavailable
condition is only logged. -/
theorem placeOrder_timeout_queue_down_failed (orders : OrderDb) (inv : InvState)
    (freshId productId : String) (q : Int) (g : Bool) (env : PlaceEnv)
    (hv : ¬(productId = "" ∨ q = 0))
    (ht : env.timedOut = true)
    (hq : ¬(env.channelUp = true ∧ env.enqueueOk = true)) :
    (placeOrder orders inv freshId productId q g env).resp
        = OrderResponse.failed errorMessageDefault freshId "FAILED" ∧
    dbFind (placeOrder orders inv freshId productId q g env).orders freshId
        = some "FAILED" ∧
    OrderResponse.httpStatus (placeOrder orders inv freshId productId q g env).resp
        = 503 ∧
    (placeOrder orders inv freshId productId q g env).sentWork = [] := by
  have hpo : placeOrder orders inv freshId productId q g env =
      ⟨OrderResponse.failed errorMessageDefault freshId "FAILED",
        (freshId, "FAILED") :: orders, inv, []⟩ := by
    simp [placeOrder, hv, ht, hq, dbUpdate]
  rw [hpo]
  exact ⟨rfl, by simp [dbFind], rfl, rfl⟩

/-- Witness for the amended C5: a concrete timed-out request with the channel
down ends FAILED with the generic 503 and no message sent. -/
theorem placeOrder_timeout_queue_down_failed_witness :
    (placeOrder [] ⟨[("p1", 7)], []⟩ "o9" "p1" 5 false ⟨true, false, true⟩).resp
        = OrderResponse.failed errorMessageDefault "o9" "FAILED" ∧
    dbFind (placeOrder [] ⟨[("p1", 7)], []⟩ "o9" "p1" 5 false ⟨true, false, true⟩).orders "o9"
        = some "FAILED" ∧
    OrderResponse.httpStatus
        (placeOrder [] ⟨[("p1", 7)], []⟩ "o9" "p1" 5 false ⟨true, false, true⟩).resp = 503 ∧
    (placeOrder [] ⟨[("p1", 7)], []⟩ "o9" "p1" 5 false ⟨true, false, true⟩).sentWork = [] :=
  placeOrder_timeout_queue_down_failed [] ⟨[("p1", 7)], []⟩ "o9" "p1" 5 false
    ⟨true, false, true⟩ (by decide) rfl (by decide)

/-- C7 counterexample: an order failing for insufficient stock is answered
with the generic "Order failed due to inventory issue" — a string different
from the underlying "Insufficient stock or product not found" reason and
identical to the response of a timeout-with-queue-down failure, so the
response does not surface the insufficient-stock cause. -/
theorem insufficient_stock_response_generic :
    (placeOrder [] ⟨[("p1", 2)], []⟩ "o1" "p1" 5 false ⟨false, true, true⟩).resp
        = OrderResponse.failed "Order failed due to inventory issue" "o1" "FAILED" ∧
    "Order failed due to inventory issue" ≠ "Insufficient stock or product not found" ∧
    (placeOrder [] ⟨[("p1", 2)], []⟩ "o1" "p1" 5 false ⟨false, true, true⟩).resp
        = (placeOrder [] ⟨[("p1", 9)], []⟩ "o1" "p1" 5 false ⟨true, false, true⟩).resp :=
  ⟨rfl, by decide, rfl⟩

/-- C7 (amended): a request whose quantity exceeds the available stock (no
timeout) ends FAILED with the stock and the whole inventory state unchanged,
and the caller receives the 503 response carrying the generic error message —
the insufficient-stock reason itself is not surfaced in the response body. -/
theorem placeOrder_insufficient_stock_failed (orders : OrderDb) (inv : InvState)
    (freshId productId : String) (q st : Int) (g : Bool) (env : PlaceEnv)
    (hv : ¬(productId = "" ∨ q = 0)) (hfid : ¬freshId = "")
    (ht : env.timedOut = false)
    (hmem : freshId ∉ inv.idempotencyLog)
    (hst : dbFind inv.products productId = some st) (hlt : st < q) :
    (placeOrder orders inv freshId productId q g env).resp
        = OrderResponse.failed errorMessageDefault freshId "FAILED" ∧
    dbFind (placeOrder orders inv freshId productId q g env).orders freshId
        = some "FAILED" ∧
    (placeOrder orders inv freshId productId q g env).inv = inv := by
  have hv' := hv
  push_neg at hv'
  obtain ⟨hp, hq0⟩ := hv'
  have hend : inventoryDeductEndpoint inv productId q freshId g
      = (InvResponse.badRequest "Insufficient stock or product not found", inv) := by
    simp [inventoryDeductEndpoint, hp, hq0, hfid, deductInventory, hmem, hst, hlt]
  have hpo : placeOrder orders inv freshId productId q g env =
      ⟨OrderResponse.failed errorMessageDefault freshId "FAILED",
        (freshId, "FAILED") :: orders, inv, []⟩ := by
    simp [placeOrder, hv, ht, hend, dbUpdate]
  rw [hpo]
  exact ⟨rfl, by simp [dbFind], rfl⟩

/-- Witness for the amended C7: stock 2, quantity 5 — the concrete request
ends FAILED with the generic 503 and the inventory state is untouched. -/
theorem placeOrder_insufficient_stock_failed_witness :
    (placeOrder [] ⟨[("p1", 2)], []⟩ "o7" "p1" 5 false ⟨false, true, true⟩).resp
        = OrderResponse.failed errorMessageDefault "o7" "FAILED" ∧
    dbFind (placeOrder [] ⟨[("p1", 2)], []⟩ "o7" "p1" 5 false ⟨false, true, true⟩).orders "o7"
        = some "FAILED" ∧
    (placeOrder [] ⟨[("p1", 2)], []⟩ "o7" "p1" 5 false ⟨false, true, true⟩).inv
        = ⟨[("p1", 2)], []⟩ :=
  placeOrder_insufficient_stock_failed [] ⟨[("p1", 2)], []⟩ "o7" "p1" 5 2 false
    ⟨false, true, true⟩ (by decide) (by decide) rfl (by decide) (by decide) (by decide)

/-- C10: a negative quantity passes the falsy-only placement validation and
the `stock < quantity` check, so the request is CONFIRMED and the committed
stock update raises the stock from `st` to `st - q = st + |q|`. -/
theorem negative_quantity_increases_stock (orders : OrderDb) (inv : InvState)
    (freshId productId : String) (q st : Int) (g : Bool) (env : PlaceEnv)
    (hneg : q < 0) (hp : ¬productId = "") (hfid : ¬freshId = "")
    (hst : dbFind inv.products productId = some st) (h0 : 0 ≤ st)
    (hmem : freshId ∉ inv.idempotencyLog)
    (ht : env.timedOut = false) :
    (placeOrder orders inv freshId productId q g env).resp
        = OrderResponse.confirmed freshId ∧
    dbFind (placeOrder orders inv freshId productId q g env).inv.products productId
        = some (st - q) ∧
    st - q = st + |q| ∧ st < st - q := by
  have hq0 : ¬ q = 0 := by omega
  have hnl : ¬ st < q := by omega
  have hded : deductInventory inv productId q freshId
      = (Except.ok DeductOk.applied,
          ⟨dbUpdate inv.products productId (st - q), freshId :: inv.idempotencyLog⟩) := by
    simp [deductInventory, hmem, hst, hnl]
  have hend : inventoryDeductEndpoint inv productId q freshId g
      = (InvResponse.ok (deductMessage DeductOk.applied) true,
          ⟨dbUpdate inv.products productId (st - q), freshId :: inv.idempotencyLog⟩) := by
    simp [inventoryDeductEndpoint, hp, hq0, hfid, hded]
  have hpo : placeOrder orders inv freshId productId q g env =
      ⟨OrderResponse.confirmed freshId, (freshId, "CONFIRMED") :: orders,
        ⟨dbUpdate inv.products productId (st - q), freshId :: inv.idempotencyLog⟩, []⟩ := by
    simp [placeOrder, hp, hq0, ht, hend, dbUpdate]
  rw [hpo]
  refine ⟨rfl, ?_, ?_, by omega⟩
  · show dbFind (dbUpdate inv.products productId (st - q)) productId = some (st - q)
    exact dbFind_dbUpdate inv.products productId st (st - q) hst
  · rw [abs_of_neg hneg]; ring

/-- Witness for C10: stock 10, quantity −5 — the request is CONFIRMED and the
stock rises to 15. -/
theorem negative_quantity_increases_stock_witness :
    (placeOrder [] ⟨[("p1", 10)], []⟩ "o1" "p1" (-5) false ⟨false, true, true⟩).resp
        = OrderResponse.confirmed "o1" ∧
    dbFind (placeOrder [] ⟨[("p1", 10)], []⟩ "o1" "p1" (-5) false ⟨false, true, true⟩).inv.products "p1"
        = some 15 ∧
    (10 : Int) - (-5) = 10 + |(-5 : Int)| ∧ (10 : Int) < 10 - (-5) :=
  negative_quantity_increases_stock [] ⟨[("p1", 10)], []⟩ "o1" "p1" (-5) 10 false
    ⟨false, true, true⟩ (by decide) (by decide) (by decide) (by decide) (by decide)
    (by decide) rfl

/-- C2 counterexample: the completion consumer has no terminal-state check —
an order already in the terminal state CONFIRMED is overwritten to FAILED by
a FAILED completion event, so the event is not a no-op and the order leaves a
terminal state. -/
theorem terminal_order_overwritten :
    applyCompletion [("o1", "CONFIRMED")] "o1" "FAILED" = [("o1", "FAILED")] ∧
    applyCompletion [("o1", "CONFIRMED")] "o1" "FAILED" ≠ [("o1", "CONFIRMED")] := by
  constructor
  · rfl
  · intro h
    simp [applyCompletion, completionStatus, dbUpdate] at h

/-- C2 (amended): the completion consumer unconditionally overwrites the
referenced order's status with the event's outcome (COMPLETED or FAILED;
anything else mapped to COMPLETED), whatever the current status — terminal
included; the event is a no-op only when the written status equals the
current one. -/
theorem applyCompletion_overwrites (orders : OrderDb) (oid ev st : String)
    (h : dbFind orders oid = some st) :
    dbFind (applyCompletion orders oid ev) oid = some (completionStatus ev) := by
  exact dbFind_dbUpdate orders oid st (completionStatus ev) h

/-- Witness for the amended C2: a CONFIRMED order hit by a FAILED completion
event reads FAILED afterwards. -/
theorem applyCompletion_overwrites_witness :
    dbFind [("o1", "CONFIRMED")] "o1" = some "CONFIRMED" ∧
    dbFind (applyCompletion [("o1", "CONFIRMED")] "o1" "FAILED") "o1"
        = some (completionStatus "FAILED") :=
  ⟨by decide, applyCompletion_overwrites [("o1", "CONFIRMED")] "o1" "FAILED"
    "CONFIRMED" (by decide)⟩

/-- C6 counterexample: when asynchronous fulfillment throws (here:
insufficient stock), the consumer acks the message but sends no completion
event at all — in particular no FAILED event is published. -/
theorem async_failure_publishes_nothing :
    (consumeWorkItem ⟨[("p1", 0)], []⟩ ⟨"p1", 1, "o9"⟩).acked = true ∧
    (consumeWorkItem ⟨[("p1", 0)], []⟩ ⟨"p1", 1, "o9"⟩).completionEvents = [] :=
  ⟨rfl, rfl⟩

/-- C6 (amended): whenever `deductInventory` fails inside the background
consumer, the message is acknowledged anyway and no completion event is
published (the failure is only logged; the order is left QUEUED). -/
theorem consume_failure_acked_no_event (s : InvState) (w : WorkItem) (e : String)
    (h : (deductInventory s w.productId w.quantity w.orderId).1 = Except.error e) :
    (consumeWorkItem s w).acked = true ∧
    (consumeWorkItem s w).completionEvents = [] := by
  simp [consumeWorkItem, h]

/-- Witness for the amended C6 at a concrete failing WorkItem. -/
theorem consume_failure_acked_no_event_witness :
    ((deductInventory ⟨[("p1", 0)], []⟩ "p1" 1 "o8").1
        = Except.error "Insufficient stock or product not found") ∧
    ((consumeWorkItem ⟨[("p1", 0)], []⟩ ⟨"p1", 1, "o8"⟩).acked = true ∧
     (consumeWorkItem ⟨[("p1", 0)], []⟩ ⟨"p1", 1, "o8"⟩).completionEvents = []) :=
  ⟨by rfl, consume_failure_acked_no_event ⟨[("p1", 0)], []⟩ ⟨"p1", 1, "o8"⟩
    "Insufficient stock or product not found" (by rfl)⟩

/-- C9: a completion event whose status is neither COMPLETED nor FAILED sets
the referenced order's status to COMPLETED. -/
theorem unknown_completion_status_completes (orders : OrderDb) (oid ev st : String)
    (h : dbFind orders oid = some st)
    (h1 : ev ≠ "COMPLETED") (h2 : ev ≠ "FAILED") :
    dbFind (applyCompletion orders oid ev) oid = some "COMPLETED" := by
  have hcs : completionStatus ev = "COMPLETED" := by
    simp [completionStatus, h1, h2]
  rw [applyCompletion, hcs]
  exact dbFind_dbUpdate orders oid st "COMPLETED" h

/-- Witness for C9: a QUEUED order hit by a completion event with the unknown
status "DONE" reads COMPLETED afterwards. -/
theorem unknown_completion_status_completes_witness :
    dbFind [("o1", "QUEUED")] "o1" = some "QUEUED" ∧
    ("DONE" : String) ≠ "COMPLETED" ∧
    ("DONE" : String) ≠ "FAILED" ∧
    dbFind (applyCompletion [("o1", "QUEUED")] "o1" "DONE") "o1" = some "COMPLETED" :=
  ⟨by decide, by decide, by decide,
    unknown_completion_status_completes [("o1", "QUEUED")] "o1" "DONE" "QUEUED"
      (by decide) (by decide) (by decide)⟩

/-- Summing via the handler's `reduce` from an accumulator equals the
accumulator plus the list sum of the durations. -/
theorem foldl_duration_sum (l : List LatencySample) (a : Rat) :
    l.foldl (fun sum r => sum + r.duration) a = a + (l.map LatencySample.duration).sum := by
  induction l generalizing a with
  | nil => simp
  | cons hd tl ih =>
    simp only [List.foldl_cons, List.map_cons, List.sum_cons, ih]
    ring

/-- C8: `average()` is the arithmetic mean of exactly the samples whose age
at read time is at most the 30-second window (0 when none is in the window);
at the spec's concrete instant — samples at t = 0 s (1.0 s), 10 s (2.0 s),
35 s (3.0 s) read at t = 36 s — it returns 2.5. -/
theorem statsAverage_is_window_mean :
    (∀ (samples : List LatencySample) (now : Int),
      statsAverage samples now =
        if (samples.filter (fun r => now - r.time ≤ 30000)).length = 0 then 0
        else ((samples.filter (fun r => now - r.time ≤ 30000)).map LatencySample.duration).sum
              / (samples.filter (fun r => now - r.time ≤ 30000)).length) ∧
    statsAverage [⟨0, 1⟩, ⟨10000, 2⟩, ⟨35000, 3⟩] 36000 = 5 / 2 := by
  constructor
  · intro samples now
    simp only [statsAverage, validDurations, WINDOW_SIZE_MS, foldl_duration_sum, zero_add]
    rcases eq_or_ne (samples.filter (fun r => now - r.time ≤ 30000)).length 0 with h | h
    · rw [if_pos h, h, if_neg (lt_irrefl 0)]
    · rw [if_neg h, if_pos (Nat.pos_of_ne_zero h)]
  · norm_num [statsAverage, validDurations, WINDOW_SIZE_MS, List.filter_cons,
      List.foldl_cons, List.foldl_nil]

end Valerix
